import Mathlib

/-!
Verification of the https-proxy statistics pipeline and CONNECT tunnel
front end, as a shallow embedding of the Go sources.

Conventions of the embedding:
* `time.Time` values are modelled as natural numbers of seconds since the
  Unix epoch in UTC; the Go zero time is represented by `0`
  (`t.IsZero()` becomes `t = 0`).
* Go's fixed-width integer counters (`uint64` byte counters, `int`
  connection counters) are modelled as unbounded naturals; wraparound,
  which would require more than 2^63 bytes through a single counter, is
  outside the modelled regime.
* Go maps are modelled as functions into `Option`; a map write is a
  pointwise function update.  Iteration over a map (which in Go touches
  each key exactly once, in unspecified order) is modelled pointwise.
* Channels, goroutines and mutexes are modelled by explicit state
  passing: the bounded event channel is a list of pending events, and
  the collector loop is the fold of `aggregate` over the events it
  receives.
-/

/-! ## Timestamp formatting (Go `time.Truncate` + `Format`)

`aggregate` in the collector builds its keys with
`t.Truncate(time.Minute).Format("2006-01-02T15:04:00")` and
`t.Truncate(time.Hour).Format("2006-01-02T15:00:00")`.  We implement the
civil-calendar conversion for the proleptic Gregorian calendar (days
since 1970-01-01, valid for all non-negative day counts). -/

/-- Zero-pad a natural to two digits, as Go's `Format` does for the
month, day, hour and minute fields. -/
def pad2 (n : Nat) : String :=
  if n < 10 then "0" ++ toString n else toString n

/-- Zero-pad a natural to four digits for the year field. -/
def pad4 (n : Nat) : String :=
  if n < 10 then "000" ++ toString n
  else if n < 100 then "00" ++ toString n
  else if n < 1000 then "0" ++ toString n
  else toString n

/-- Convert a count of days since 1970-01-01 to a civil `(year, month, day)`
triple (proleptic Gregorian, UTC), the calendar computation performed by
Go's `Time.Date`. -/
def civilFromDays (z : Nat) : Nat × Nat × Nat :=
  let z' := z + 719468
  let era := z' / 146097
  let doe := z' % 146097
  let yoe := (doe - doe / 1460 + doe / 36524 - doe / 146096) / 365
  let y := yoe + era * 400
  let doy := doe - (365 * yoe + yoe / 4 - yoe / 100)
  let mp := (5 * doy + 2) / 153
  let d := doy - (153 * mp + 2) / 5 + 1
  let m := if mp < 10 then mp + 3 else mp - 9
  (if m ≤ 2 then y + 1 else y, m, d)

/-- Format the date part `YYYY-MM-DD` of a timestamp given as days since
the epoch. -/
def fmtDate (days : Nat) : String :=
  let c := civilFromDays days
  pad4 c.1 ++ "-" ++ pad2 c.2.1 ++ "-" ++ pad2 c.2.2

/-- Go expression `t.Truncate(time.Minute).Format("2006-01-02T15:04:00")`: the minute
bucket key.  The trailing `00` is literal text in the Go layout string. -/
def fmtMinuteKey (t : Nat) : String :=
  let tm := t / 60 * 60
  fmtDate (tm / 86400) ++ "T" ++ pad2 (tm % 86400 / 3600) ++ ":" ++
    pad2 (tm % 3600 / 60) ++ ":00"

/-- Go expression `t.Truncate(time.Hour).Format("2006-01-02T15:00:00")`: the hour
bucket key.  `:00:00` is literal text in the Go layout string. -/
def fmtHourKey (t : Nat) : String :=
  let th := t / 3600 * 3600
  fmtDate (th / 86400) ++ "T" ++ pad2 (th % 86400 / 3600) ++ ":00:00"

/-! ## Traffic events and the in-memory aggregation buffer (stats collector) -/

/-- Struct `TrafficEvent` from the collector source: emitted when a CONNECT
tunnel closes. -/
structure TrafficEvent where
  Username : String
  Domain : String
  TargetIP : String
  Upload : Nat
  Download : Nat
  Timestamp : Nat
  Country : String
  CountryName : String
  Continent : String
deriving DecidableEq

/-- Struct `bufferKey`: uniquely identifies an aggregation bucket. -/
structure bufferKey where
  Username : String
  Domain : String
  Country : String
  Minute : String
  Hour : String
deriving DecidableEq

/-- Struct `aggregatedEvent`: accumulates traffic within a single buffer key. -/
structure aggregatedEvent where
  Upload : Nat
  Download : Nat
  ConnCount : Nat
  CountryName : String
  Continent : String
  LastSeen : Nat
deriving DecidableEq

/-- The collector's in-memory buffer `map[bufferKey]*aggregatedEvent`,
modelled as a partial function. -/
def Buffer : Type := bufferKey → Option aggregatedEvent

/-- The freshly allocated empty buffer (`make(map[bufferKey]*aggregatedEvent)`). -/
def emptyBuffer : Buffer := fun _ => none

/-- The effective event time in `aggregate`: `t := ev.Timestamp; if
t.IsZero() { t = time.Now() }`.  `now` is the value `time.Now()` would
return. -/
def eventTime (now : Nat) (ev : TrafficEvent) : Nat :=
  if ev.Timestamp = 0 then now else ev.Timestamp

/-- The key `aggregate` derives from an event: user, domain, country and
the minute/hour truncations of the event time. -/
def eventKey (now : Nat) (ev : TrafficEvent) : bufferKey :=
  { Username := ev.Username
    Domain := ev.Domain
    Country := ev.Country
    Minute := fmtMinuteKey (eventTime now ev)
    Hour := fmtHourKey (eventTime now ev) }

/-- The per-bucket update performed by `aggregate`: allocate a fresh
bucket carrying the event's country name and continent when the key is
new, then add upload/download, increment the connection count, and raise
`LastSeen` when the event time is strictly later (`t.After(agg.LastSeen)`). -/
def aggApply (o : Option aggregatedEvent) (ev : TrafficEvent) (t : Nat) : aggregatedEvent :=
  let agg : aggregatedEvent :=
    match o with
    | some a => a
    | none =>
      { Upload := 0, Download := 0, ConnCount := 0
        CountryName := ev.CountryName, Continent := ev.Continent, LastSeen := 0 }
  { agg with
    Upload := agg.Upload + ev.Upload
    Download := agg.Download + ev.Download
    ConnCount := agg.ConnCount + 1
    LastSeen := if agg.LastSeen < t then t else agg.LastSeen }

/-- Method `(*StatsCollector).aggregate`: one event folded into the buffer. -/
def aggregate (now : Nat) (b : Buffer) (ev : TrafficEvent) : Buffer :=
  fun k =>
    if k = eventKey now ev then
      some (aggApply (b (eventKey now ev)) ev (eventTime now ev))
    else b k

/-- The collector loop's effect on the buffer over a finite sequence of
received events: the fold of `aggregate`. -/
def aggregateList (now : Nat) (b : Buffer) (evs : List TrafficEvent) : Buffer :=
  evs.foldl (aggregate now) b

/-- Specification-side description of one bucket: the sums of the
uploads and downloads, the event count, the first event's display
fields, and the latest timestamp. -/
def bucketSpec (l : List TrafficEvent) : Option aggregatedEvent :=
  match l with
  | [] => none
  | e :: _ =>
    some
      { Upload := (l.map TrafficEvent.Upload).sum
        Download := (l.map TrafficEvent.Download).sum
        ConnCount := l.length
        CountryName := e.CountryName
        Continent := e.Continent
        LastSeen := l.foldl (fun m ev => max m ev.Timestamp) 0 }

/-! ## GeoIP enrichment and the bounded event channel (`Record`) -/

/-- Struct `GeoResult` from the GeoIP service source. -/
structure GeoResult where
  Country : String
  CountryName : String
  Continent : String
deriving DecidableEq

/-- The capacity of the collector's event channel:
`make(chan TrafficEvent, 10000)` in `NewStatsCollector`. -/
def chanCapacity : Nat := 10000

/-- The enrichment step at the top of `(*StatsCollector).Record`: if the
event has no country but has a target IP, consult the GeoIP resolver and
copy the result's fields in when the lookup succeeds.  A nil or disabled
GeoIP service is the resolver `fun _ => none`. -/
def enrichEvent (lookup : String → Option GeoResult) (ev : TrafficEvent) : TrafficEvent :=
  if ev.Country = "" ∧ ev.TargetIP ≠ "" then
    match lookup ev.TargetIP with
    | some geo =>
      { ev with
        Country := geo.Country
        CountryName := geo.CountryName
        Continent := geo.Continent }
    | none => ev
  else ev

/-- Method `(*StatsCollector).Record`: enrich the event, then perform a
non-blocking send on the bounded channel (`select` with a `default`
branch).  The channel is modelled as the list of pending events; the
returned boolean is `true` when the event was enqueued and `false` when
the full channel made `Record` drop it (and log). -/
def Record (lookup : String → Option GeoResult) (q : List TrafficEvent)
    (ev : TrafficEvent) : List TrafficEvent × Bool :=
  let enriched := enrichEvent lookup ev
  if q.length < chanCapacity then (q ++ [enriched], true) else (q, false)

/-! ## Flush failure: merging the swapped batch back (`flush`) -/

/-- The failure branch of `(*StatsCollector).flush`: after
`BatchUpsert` returns an error, every bucket of the swapped-out buffer
`old` is merged back into the current buffer (`current`, holding
whatever was aggregated since the swap): when the key already exists the
three counters are added onto the existing bucket, otherwise the old
bucket is re-inserted as is. -/
def flushMergeBack (current old : Buffer) : Buffer :=
  fun k =>
    match old k with
    | none => current k
    | some agg =>
      match current k with
      | some existing =>
        some { existing with
          Upload := existing.Upload + agg.Upload
          Download := existing.Download + agg.Download
          ConnCount := existing.ConnCount + agg.ConnCount }
      | none => some agg

/-- Upload bytes held in an optional bucket (0 when absent). -/
def upOf : Option aggregatedEvent → Nat
  | none => 0
  | some a => a.Upload

/-- Download bytes held in an optional bucket (0 when absent). -/
def downOf : Option aggregatedEvent → Nat
  | none => 0
  | some a => a.Download

/-- Connection count held in an optional bucket (0 when absent). -/
def connOf : Option aggregatedEvent → Nat
  | none => 0
  | some a => a.ConnCount

/-! ## The statistics store (`db.go`)

Embedded from `db.go` (`StatsDB`, `initTables`, `BatchUpsert`, …),
whose source appears in `src/docs/user_manual.md` after the manual
text.  The SQLite tables become one partial map per table; `DATETIME`
columns, which the code fills with formatted strings of
`r.Timestamp`, are modelled as the numeric timestamp itself. -/

/-- Struct `TrafficRecord` from `db.go`: a single aggregated traffic
record ready for DB upsert, built by the collector's `flush`. -/
structure TrafficRecord where
  Username : String
  Domain : String
  Upload : Nat
  Download : Nat
  ConnCount : Nat
  Country : String
  CountryName : String
  Continent : String
  Minute : String
  Hour : String
  Timestamp : Nat
deriving DecidableEq

/-- Row of the `user_stats` table: counters, `first_seen`/`last_access`
timestamps and the disabled flag; `request_count` and `disabled`
default to zero/false on insert (`initTables` column defaults). -/
structure UserRow where
  totalUpload : Nat
  totalDownload : Nat
  connCount : Nat
  requestCount : Nat
  firstSeen : Nat
  lastAccess : Nat
  disabled : Bool
deriving DecidableEq

/-- Row of the `domain_stats` table: counters plus `last_seen`. -/
structure DomainRow where
  upload : Nat
  download : Nat
  connCount : Nat
  lastSeen : Nat
deriving DecidableEq

/-- Row of the `minute_stats` / `hourly_stats` tables: counters only —
these two tables have no `last_seen` column. -/
structure BucketRow where
  upload : Nat
  download : Nat
  connCount : Nat
deriving DecidableEq

/-- Row of the `country_stats` table: display fields, counters and
`last_seen`. -/
structure CountryRow where
  countryName : String
  continent : String
  upload : Nat
  download : Nat
  connCount : Nat
  lastSeen : Nat
deriving DecidableEq

/-- The persistent state of `StatsDB`: one partial map per table, keyed
by the primary keys of `initTables` (the `retention_config` table holds
no statistics). -/
structure StatsDBState where
  users : String → Option UserRow
  domains : String × String → Option DomainRow
  minutes : String × String → Option BucketRow
  hours : String × String → Option BucketRow
  countries : String × String → Option CountryRow

/-- The store created by `NewStatsDB` on a fresh database file. -/
def emptyStatsDB : StatsDBState :=
  { users := fun _ => none
    domains := fun _ => none
    minutes := fun _ => none
    hours := fun _ => none
    countries := fun _ => none }

/-- The `user_stats` statement of `BatchUpsert`: insert
`(username, upload, download, conn, ts, ts)`; on conflict add the three
counters and set `last_access = excluded.last_access` — an
unconditional overwrite with the incoming timestamp.  `first_seen`,
`request_count` and `disabled` are untouched on update. -/
def upsertUser (row : Option UserRow) (r : TrafficRecord) : UserRow :=
  match row with
  | some u =>
    { u with
      totalUpload := u.totalUpload + r.Upload
      totalDownload := u.totalDownload + r.Download
      connCount := u.connCount + r.ConnCount
      lastAccess := r.Timestamp }
  | none =>
    { totalUpload := r.Upload, totalDownload := r.Download
      connCount := r.ConnCount, requestCount := 0
      firstSeen := r.Timestamp, lastAccess := r.Timestamp, disabled := false }

/-- The `domain_stats` statement of `BatchUpsert`: on conflict add the
counters and set `last_seen = excluded.last_seen` (overwrite). -/
def upsertDomain (row : Option DomainRow) (r : TrafficRecord) : DomainRow :=
  match row with
  | some d =>
    { upload := d.upload + r.Upload
      download := d.download + r.Download
      connCount := d.connCount + r.ConnCount
      lastSeen := r.Timestamp }
  | none =>
    { upload := r.Upload, download := r.Download
      connCount := r.ConnCount, lastSeen := r.Timestamp }

/-- The `minute_stats` / `hourly_stats` statements of `BatchUpsert`: on
conflict add the three counters; these tables carry no timestamp. -/
def upsertBucket (row : Option BucketRow) (r : TrafficRecord) : BucketRow :=
  match row with
  | some b =>
    { upload := b.upload + r.Upload
      download := b.download + r.Download
      connCount := b.connCount + r.ConnCount }
  | none =>
    { upload := r.Upload, download := r.Download, connCount := r.ConnCount }

/-- The `country_stats` statement of `BatchUpsert`: on conflict
`country_name = COALESCE(excluded.country_name, country_name)` and
likewise for `continent` — the bound Go strings are never SQL NULL, so
the incoming values win; counters are added and
`last_seen = excluded.last_seen`. -/
def upsertCountry (row : Option CountryRow) (r : TrafficRecord) : CountryRow :=
  match row with
  | some c =>
    { countryName := r.CountryName
      continent := r.Continent
      upload := c.upload + r.Upload
      download := c.download + r.Download
      connCount := c.connCount + r.ConnCount
      lastSeen := r.Timestamp }
  | none =>
    { countryName := r.CountryName, continent := r.Continent
      upload := r.Upload, download := r.Download
      connCount := r.ConnCount, lastSeen := r.Timestamp }

/-- The per-record body of `BatchUpsert`'s loop: always execute the
`user_stats` statement; execute the domain/minute/hour/country
statements iff the corresponding field is non-empty. -/
def upsertRecord (db : StatsDBState) (r : TrafficRecord) : StatsDBState :=
  { users := fun k =>
      if k = r.Username then some (upsertUser (db.users r.Username) r) else db.users k
    domains := fun k =>
      if r.Domain ≠ "" ∧ k = (r.Username, r.Domain) then
        some (upsertDomain (db.domains (r.Username, r.Domain)) r)
      else db.domains k
    minutes := fun k =>
      if r.Minute ≠ "" ∧ k = (r.Username, r.Minute) then
        some (upsertBucket (db.minutes (r.Username, r.Minute)) r)
      else db.minutes k
    hours := fun k =>
      if r.Hour ≠ "" ∧ k = (r.Username, r.Hour) then
        some (upsertBucket (db.hours (r.Username, r.Hour)) r)
      else db.hours k
    countries := fun k =>
      if r.Country ≠ "" ∧ k = (r.Username, r.Country) then
        some (upsertCountry (db.countries (r.Username, r.Country)) r)
      else db.countries k }

/-- Method `(*StatsDB).BatchUpsert`: all records of the batch applied in
order inside a single transaction (atomicity is represented by the
batch being one total function on the store state; the failure path is
modelled at the collector, claim C3). -/
def BatchUpsert (db : StatsDBState) (records : List TrafficRecord) : StatsDBState :=
  records.foldl upsertRecord db

/-! ## Counting byte-stream wrappers -/

/-- The `(n, err)` pair returned by one call to an underlying Go
`Read`/`Write`: the number of bytes transferred and whether the error
return was non-nil. -/
structure IOReturn where
  n : Nat
  errored : Bool
deriving DecidableEq

/-- Struct `CountingReader`: wraps a reader and counts bytes read. -/
structure CountingReader where
  bytesRead : Nat
deriving DecidableEq

/-- Method `(*CountingReader).Read`: forward the call to the underlying reader
(whose outcome for this call is `res`), add `n` to the counter whether
or not `err` was non-nil, and return the underlying `(n, err)`
unchanged. -/
def CountingReader.Read (r : CountingReader) (res : IOReturn) :
    CountingReader × IOReturn :=
  ({ bytesRead := r.bytesRead + res.n }, res)

/-- The counter state after a finite sequence of `Read` calls whose
underlying outcomes are `l`. -/
def CountingReader.readAll (r : CountingReader) (l : List IOReturn) : CountingReader :=
  l.foldl (fun s res => (s.Read res).1) r

/-- Struct `CountingWriter`: wraps a writer and counts bytes written. -/
structure CountingWriter where
  bytesWritten : Nat
deriving DecidableEq

/-- Method `(*CountingWriter).Write`: forward the call to the underlying
writer, add `n` to the counter whether or not `err` was non-nil, and
return the underlying `(n, err)` unchanged. -/
def CountingWriter.Write (w : CountingWriter) (res : IOReturn) :
    CountingWriter × IOReturn :=
  ({ bytesWritten := w.bytesWritten + res.n }, res)

/-- The counter state after a finite sequence of `Write` calls whose
underlying outcomes are `l`. -/
def CountingWriter.writeAll (w : CountingWriter) (l : List IOReturn) : CountingWriter :=
  l.foldl (fun s res => (s.Write res).1) w

/-! ## The legacy in-memory statistics manager -/

/-- Struct `UserStats`: statistics for a single user in the legacy manager. -/
structure UserStats where
  Username : String
  TotalBytes : Nat
  LastAccess : Nat
  RequestsCount : Nat
  ConnectedSince : Nat
  ConnectionCount : Nat
  Disabled : Bool
deriving DecidableEq

/-- Struct `StatsManager`: the in-memory map of user statistics plus the dirty
flag (config, ticker and done channel carry no statistics state). -/
structure StatsManager where
  userStats : String → Option UserStats
  dirtyStats : Bool

/-- A `StatsManager` freshly created by `NewStatsManager` with no
persisted statistics to load. -/
def emptyStatsManager : StatsManager :=
  { userStats := fun _ => none, dirtyStats := false }

/-- Write one user's entry in the manager's map. -/
def putUser (m : String → Option UserStats) (k : String) (v : UserStats) :
    String → Option UserStats :=
  fun x => if x = k then some v else m x

/-- Method `(*StatsManager).IsUserDisabled`: a user absent from the map
defaults to not disabled. -/
def StatsManager.IsUserDisabled (sm : StatsManager) (username : String) : Bool :=
  match sm.userStats username with
  | none => false
  | some stats => stats.Disabled

/-- Method `(*StatsManager).DisableUser`: set the dirty flag; create a disabled
entry when the user is unknown (returning `true`); report `false`
without further change when the user is already disabled; otherwise set
the flag (returning `true`).  `now` is `time.Now()` for the
`ConnectedSince` of a freshly created entry; the remaining fields start
at their Go zero values. -/
def StatsManager.DisableUser (sm : StatsManager) (username : String) (now : Nat) :
    StatsManager × Bool :=
  let sm' : StatsManager := { sm with dirtyStats := true }
  match sm.userStats username with
  | none =>
    let fresh : UserStats :=
      { Username := username, TotalBytes := 0, LastAccess := 0
        RequestsCount := 0, ConnectedSince := now
        ConnectionCount := 0, Disabled := true }
    ({ sm' with userStats := putUser sm'.userStats username fresh }, true)
  | some stats =>
    if stats.Disabled then (sm', false)
    else
      let upd : UserStats := { stats with Disabled := true }
      ({ sm' with userStats := putUser sm'.userStats username upd }, true)

/-- Method `(*StatsManager).EnableUser`: the mirror image of `DisableUser` —
create an enabled entry when the user is unknown, report `false` when
already enabled, otherwise clear the flag. -/
def StatsManager.EnableUser (sm : StatsManager) (username : String) (now : Nat) :
    StatsManager × Bool :=
  let sm' : StatsManager := { sm with dirtyStats := true }
  match sm.userStats username with
  | none =>
    let fresh : UserStats :=
      { Username := username, TotalBytes := 0, LastAccess := 0
        RequestsCount := 0, ConnectedSince := now
        ConnectionCount := 0, Disabled := false }
    ({ sm' with userStats := putUser sm'.userStats username fresh }, true)
  | some stats =>
    if stats.Disabled then
      let upd : UserStats := { stats with Disabled := false }
      ({ sm' with userStats := putUser sm'.userStats username upd }, true)
    else (sm', false)

/-! ## The proxy front end (`ServeHTTP`) -/

/-- The inputs to one `ServeHTTP` dispatch that the claims depend on:
whether a peer certificate was presented, whether `verifyClientCert`
accepted it, the certificate's Common Name, and whether the method is
CONNECT. -/
structure ReqCtx where
  hasPeerCert : Bool
  certValid : Bool
  username : String
  isConnect : Bool
deriving DecidableEq

/-- The terminal action `ServeHTTP` takes on a request. -/
inductive HttpAction where
  /-- Call `http.Error(w, msg, code)`. -/
  | httpError (msg : String) (code : Nat)
  /-- Call `proxyUnauthorizedRequest`: forward to the configured default site. -/
  | proxyDefault
  /-- Call `handleConnectWithStats`: open a tunnel for the named user. -/
  | tunnel (username : String)
deriving DecidableEq

/-- The observable outcome of one `ServeHTTP` dispatch: the terminal
action plus which statistics side effects ran on the way. -/
structure ServeResult where
  action : HttpAction
  recordedConnection : Bool
  recordedRequest : Bool
  dbRequestIncremented : Bool
deriving DecidableEq

/-- Method `(*Proxy).ServeHTTP`, with the certificate checks abstracted into
`ReqCtx`: no certificate yields 405 (CONNECT) or the decoy proxy;
a valid certificate is checked against the disabled flag — in the
persistent store when `dbAvail` (the `p.StatsDB != nil` branch), else in
the in-memory manager — and rejected with 403 before any tunneling,
proxying or statistics recording; then CONNECTs from valid users record
a connection and tunnel, invalid CONNECTs get 405, and non-CONNECTs
record a request (when valid) and are proxied to the default site. -/
def ServeHTTP (dbAvail dbDisabled : Bool) (sm : StatsManager) (req : ReqCtx) :
    ServeResult :=
  if !req.hasPeerCert then
    if req.isConnect then
      { action := .httpError "Client certificate required" 405
        recordedConnection := false, recordedRequest := false
        dbRequestIncremented := false }
    else
      { action := .proxyDefault
        recordedConnection := false, recordedRequest := false
        dbRequestIncremented := false }
  else
    let disabled :=
      req.certValid &&
        (if dbAvail then dbDisabled else sm.IsUserDisabled req.username)
    if disabled then
      { action := .httpError "Access denied: Your account has been disabled" 403
        recordedConnection := false, recordedRequest := false
        dbRequestIncremented := false }
    else if req.isConnect then
      if req.certValid then
        { action := .tunnel req.username
          recordedConnection := true, recordedRequest := false
          dbRequestIncremented := false }
      else
        { action := .httpError "Invalid client certificate" 405
          recordedConnection := false, recordedRequest := false
          dbRequestIncremented := false }
    else
      if req.certValid then
        { action := .proxyDefault
          recordedConnection := false, recordedRequest := true
          dbRequestIncremented := dbAvail }
      else
        { action := .proxyDefault
          recordedConnection := false, recordedRequest := false
          dbRequestIncremented := false }

/-! ## The CONNECT tunnel handler -/

/-- Go's `net.JoinHostPort`: bracket the host when it contains a colon. -/
def JoinHostPort (host port : String) : String :=
  if host.contains ':' then "[" ++ host ++ "]:" ++ port else host ++ ":" ++ port

/-- The environment outcomes a tunnel attempt can meet: whether the dial
succeeds, whether the response writer supports hijacking, whether the
hijack call succeeds, and the payload byte chunks later copied from the
upstream connection to the client. -/
structure TunnelEnv where
  dialOK : Bool
  hijackSupported : Bool
  hijackOK : Bool
  payloadWrites : List String
deriving DecidableEq

/-- The observable outcome of `handleConnectWithStats` on the client. -/
inductive ConnectResult where
  /-- Response `http.Error(..., http.StatusBadGateway)` after a failed dial. -/
  | badGateway
  /-- Response `http.Error("hijacking not supported", 500)`. -/
  | hijackNotSupported
  /-- Response `http.Error(err.Error(), 500)` after a failed hijack. -/
  | hijackFailed
  /-- Tunnel established: the address that was dialed and the ordered
  byte chunks written on the hijacked client socket. -/
  | established (dialAddr : String) (clientWrites : List String)
deriving DecidableEq

/-- The address `handleConnectWithStats` dials: the request's hostname
joined with its port, defaulting to 443 when the port is omitted. -/
def dialAddrOf (hostname port : String) : String :=
  JoinHostPort hostname (if port = "" then "443" else port)

/-- Method `(*Proxy).handleConnectWithStats` up to the byte stream on the
client socket: dial (502 on failure), hijack (500 when unsupported or
failing), write the success line, then copy the payload. -/
def handleConnectWithStats (hostname port : String) (env : TunnelEnv) : ConnectResult :=
  if !env.dialOK then .badGateway
  else if !env.hijackSupported then .hijackNotSupported
  else if !env.hijackOK then .hijackFailed
  else .established (dialAddrOf hostname port)
    ("HTTP/1.0 200 Connection established\r\n\r\n" :: env.payloadWrites)

/-! ## Concrete sample inputs used by witnesses and counterexamples -/

/-- A GeoIP resolver knowing a single address, for concrete evaluation. -/
def sampleResolver : String → Option GeoResult :=
  fun ip =>
    if ip = "1.2.3.4" then
      some { Country := "US", CountryName := "United States", Continent := "NA" }
    else none

/-- An unenriched traffic event carrying a destination IP the sample
resolver knows. -/
def sampleEventIP : TrafficEvent :=
  { Username := "alice", Domain := "example.com", TargetIP := "1.2.3.4"
    Upload := 10, Download := 20, Timestamp := 1700000000
    Country := "", CountryName := "", Continent := "" }

/-- A traffic event with no destination IP and no country. -/
def sampleEventPlain : TrafficEvent :=
  { Username := "alice", Domain := "example.com", TargetIP := ""
    Upload := 1, Download := 2, Timestamp := 1700000000
    Country := "", CountryName := "", Continent := "" }

/-- A second event for the same user, domain, country and minute as
`sampleEventPlain` (one second later inside the same minute). -/
def sampleEventPlain2 : TrafficEvent :=
  { Username := "alice", Domain := "example.com", TargetIP := ""
    Upload := 30, Download := 40, Timestamp := 1700000001
    Country := "", CountryName := "", Continent := "" }

/-- The aggregation key of `sampleEventPlain` (for a nonzero event
timestamp the `now` argument is irrelevant). -/
def sampleKey : bufferKey := eventKey 0 sampleEventPlain

/-- First record of the accumulation scenario from the store test:
alice/google.com, 100 up, 200 down, one connection. -/
def sampleRecordA : TrafficRecord :=
  { Username := "alice", Domain := "google.com", Upload := 100, Download := 200
    ConnCount := 1, Country := "", CountryName := "", Continent := ""
    Minute := "2023-11-14T22:13:00", Hour := "2023-11-14T22:00:00"
    Timestamp := 1700000000 }

/-- Second record of the accumulation scenario: same keys, 300 up,
400 down, one more connection. -/
def sampleRecordB : TrafficRecord :=
  { Username := "alice", Domain := "google.com", Upload := 300, Download := 400
    ConnCount := 1, Country := "", CountryName := "", Continent := ""
    Minute := "2023-11-14T22:13:00", Hour := "2023-11-14T22:00:00"
    Timestamp := 1700000000 }

/-- The user row produced by upserting `sampleRecordA` into the empty
store. -/
def sampleRowA : UserRow :=
  { totalUpload := 100, totalDownload := 200, connCount := 1, requestCount := 0
    firstSeen := 1700000000, lastAccess := 1700000000, disabled := false }

/-- Variant of `sampleRecordA` carrying a country, exercising the
`country_stats` statement. -/
def sampleRecordC : TrafficRecord :=
  { Username := "alice", Domain := "google.com", Upload := 100, Download := 200
    ConnCount := 1, Country := "US", CountryName := "United States", Continent := "NA"
    Minute := "2023-11-14T22:13:00", Hour := "2023-11-14T22:00:00"
    Timestamp := 1700000000 }

/-! ## Theorems -/

/-- C3: after a failed batch upsert, merging the swapped-out buffer back
into the current buffer preserves, for every key, the per-key upload,
download and connection-count totals: the merged buffer holds exactly
the pre-flush totals plus whatever was aggregated concurrently. -/
theorem flushMergeBack_preserves_counters (current old : Buffer) (k : bufferKey) :
    upOf (flushMergeBack current old k) = upOf (old k) + upOf (current k) ∧
    downOf (flushMergeBack current old k) = downOf (old k) + downOf (current k) ∧
    connOf (flushMergeBack current old k) = connOf (old k) + connOf (current k) := by
  unfold flushMergeBack
  cases h1 : old k <;> cases h2 : current k
  all_goals simp [upOf, downOf, connOf]
  all_goals omega

/-- C4: `Record` is non-blocking over a bounded queue of exactly 10,000
events: with fewer than 10,000 pending events the (possibly enriched)
event is appended to the queue, and with a full queue the event is
dropped while `Record` still returns (the queue is unchanged and the
drop is reported). -/
theorem Record_bounded_nonblocking (lookup : String → Option GeoResult)
    (q : List TrafficEvent) (ev : TrafficEvent) :
    chanCapacity = 10000 ∧
    (q.length < 10000 → Record lookup q ev = (q ++ [enrichEvent lookup ev], true)) ∧
    (10000 ≤ q.length → Record lookup q ev = (q, false)) := by
  refine ⟨rfl, fun h => ?_, fun h => ?_⟩
  · simp [Record, chanCapacity, h]
  · simp [Record, chanCapacity, Nat.not_lt.mpr h]

/-- Witness for C4 at a concrete empty and a concrete full queue. -/
theorem Record_bounded_nonblocking_witness :
    (([] : List TrafficEvent).length < 10000 ∧
      Record (fun _ => none) [] sampleEventPlain =
        ([enrichEvent (fun _ => none) sampleEventPlain], true)) ∧
    (10000 ≤ (List.replicate 10000 sampleEventPlain).length ∧
      Record (fun _ => none) (List.replicate 10000 sampleEventPlain) sampleEventPlain =
        (List.replicate 10000 sampleEventPlain, false)) :=
  ⟨⟨by decide, (Record_bounded_nonblocking (fun _ => none) [] sampleEventPlain).2.1
      (by decide)⟩,
   ⟨by rw [List.length_replicate], (Record_bounded_nonblocking (fun _ => none)
      (List.replicate 10000 sampleEventPlain) sampleEventPlain).2.2
      (by rw [List.length_replicate])⟩⟩

/-- Helper: the reader counter accumulates the sum of the per-call byte
counts. -/
theorem readAll_bytesRead (l : List IOReturn) :
    ∀ r : CountingReader,
      (r.readAll l).bytesRead = r.bytesRead + (l.map IOReturn.n).sum := by
  induction l with
  | nil => intro r; simp [CountingReader.readAll]
  | cons res rest ih =>
    intro r
    have h1 : CountingReader.readAll r (res :: rest) =
        CountingReader.readAll ⟨r.bytesRead + res.n⟩ rest := rfl
    rw [h1, ih]
    simp [Nat.add_assoc]

/-- Helper: the writer counter accumulates the sum of the per-call byte
counts. -/
theorem writeAll_bytesWritten (l : List IOReturn) :
    ∀ w : CountingWriter,
      (w.writeAll l).bytesWritten = w.bytesWritten + (l.map IOReturn.n).sum := by
  induction l with
  | nil => intro w; simp [CountingWriter.writeAll]
  | cons res rest ih =>
    intro w
    have h1 : CountingWriter.writeAll w (res :: rest) =
        CountingWriter.writeAll ⟨w.bytesWritten + res.n⟩ rest := rfl
    rw [h1, ih]
    simp [Nat.add_assoc]

/-- C8: one call to the counting read- or write-wrapper in which the
underlying stream reports `n` bytes raises the counter by exactly `n`,
whether or not the underlying stream also reported an error (the
underlying return value is forwarded unchanged); consequently over any
sequence of calls the counter grows by the total byte count and is
monotonically non-decreasing. -/
theorem counting_wrappers_count_progress :
    (∀ (r : CountingReader) (res : IOReturn),
      (r.Read res).1.bytesRead = r.bytesRead + res.n ∧ (r.Read res).2 = res) ∧
    (∀ (w : CountingWriter) (res : IOReturn),
      (w.Write res).1.bytesWritten = w.bytesWritten + res.n ∧ (w.Write res).2 = res) ∧
    (∀ (r : CountingReader) (l : List IOReturn),
      (r.readAll l).bytesRead = r.bytesRead + (l.map IOReturn.n).sum ∧
      r.bytesRead ≤ (r.readAll l).bytesRead) ∧
    (∀ (w : CountingWriter) (l : List IOReturn),
      (w.writeAll l).bytesWritten = w.bytesWritten + (l.map IOReturn.n).sum ∧
      w.bytesWritten ≤ (w.writeAll l).bytesWritten) := by
  refine ⟨fun r res => ⟨rfl, rfl⟩, fun w res => ⟨rfl, rfl⟩,
    fun r l => ⟨readAll_bytesRead l r, ?_⟩, fun w l => ⟨writeAll_bytesWritten l w, ?_⟩⟩
  · rw [readAll_bytesRead l r]; omega
  · rw [writeAll_bytesWritten l w]; omega

/-- C5: a CONNECT whose target omits the port is dialed on port 443,
and on a successful dial and hijack the exact bytes
`HTTP/1.0 200 Connection established\r\n\r\n` are written on the
hijacked client socket before any tunneled payload bytes. -/
theorem connect_default_port_and_status_line (hostname port : String) (env : TunnelEnv)
    (hport : port = "") (hdial : env.dialOK = true)
    (hsup : env.hijackSupported = true) (hok : env.hijackOK = true) :
    dialAddrOf hostname port = JoinHostPort hostname "443" ∧
    handleConnectWithStats hostname port env =
      .established (JoinHostPort hostname "443")
        ("HTTP/1.0 200 Connection established\r\n\r\n" :: env.payloadWrites) := by
  subst hport
  constructor
  · rfl
  · simp [handleConnectWithStats, hdial, hsup, hok, dialAddrOf]

/-- Witness for C5: a portless target, successful dial and hijack. -/
theorem connect_default_port_and_status_line_witness :
    ("" : String) = "" ∧
    (TunnelEnv.mk true true true ["payload"]).dialOK = true ∧
    (TunnelEnv.mk true true true ["payload"]).hijackSupported = true ∧
    (TunnelEnv.mk true true true ["payload"]).hijackOK = true ∧
    (dialAddrOf "example.com" "" = JoinHostPort "example.com" "443" ∧
      handleConnectWithStats "example.com" "" (TunnelEnv.mk true true true ["payload"]) =
        .established (JoinHostPort "example.com" "443")
          ("HTTP/1.0 200 Connection established\r\n\r\n" :: ["payload"])) :=
  ⟨rfl, rfl, rfl, rfl,
    connect_default_port_and_status_line "example.com" ""
      (TunnelEnv.mk true true true ["payload"]) rfl rfl rfl rfl⟩

/-- C6: a request presenting a certificate that verifies, from a user
whose disabled flag is set (in the persistent store when it is
available, else in the in-memory manager), is answered with
`http.Error("Access denied: Your account has been disabled", 403)` and
nothing else: no tunnel, no proxying to the default site, and no
statistics recording. -/
theorem disabled_user_rejected (dbAvail dbDisabled : Bool) (sm : StatsManager)
    (req : ReqCtx) (hcert : req.hasPeerCert = true) (hvalid : req.certValid = true)
    (hdis : (if dbAvail then dbDisabled else sm.IsUserDisabled req.username) = true) :
    ServeHTTP dbAvail dbDisabled sm req =
      { action := .httpError "Access denied: Your account has been disabled" 403
        recordedConnection := false, recordedRequest := false
        dbRequestIncremented := false } := by
  simp [ServeHTTP, hcert, hvalid, hdis]

/-- Witness for C6: a valid certificate for a user disabled in the
persistent store. -/
theorem disabled_user_rejected_witness :
    (ReqCtx.mk true true "alice" true).hasPeerCert = true ∧
    (ReqCtx.mk true true "alice" true).certValid = true ∧
    (if true then true else emptyStatsManager.IsUserDisabled "alice") = true ∧
    ServeHTTP true true emptyStatsManager (ReqCtx.mk true true "alice" true) =
      { action := .httpError "Access denied: Your account has been disabled" 403
        recordedConnection := false, recordedRequest := false
        dbRequestIncremented := false } :=
  ⟨rfl, rfl, rfl,
    disabled_user_rejected true true emptyStatsManager
      (ReqCtx.mk true true "alice" true) rfl rfl rfl⟩

/-- C10: a username with no entry in the in-memory statistics state is
not disabled, so with the persistent store unavailable the front end
admits that user's very first request under a valid certificate:
a CONNECT is tunneled and a non-CONNECT is proxied to the default
site, neither receiving 403. -/
theorem unseen_user_fail_open (sm : StatsManager) (u : String) (dbDisabled : Bool)
    (h : sm.userStats u = none) :
    sm.IsUserDisabled u = false ∧
    ServeHTTP false dbDisabled sm (ReqCtx.mk true true u true) =
      { action := .tunnel u, recordedConnection := true
        recordedRequest := false, dbRequestIncremented := false } ∧
    ServeHTTP false dbDisabled sm (ReqCtx.mk true true u false) =
      { action := .proxyDefault, recordedConnection := false
        recordedRequest := true, dbRequestIncremented := false } := by
  have hd : sm.IsUserDisabled u = false := by
    simp [StatsManager.IsUserDisabled, h]
  refine ⟨hd, ?_, ?_⟩ <;> simp [ServeHTTP, hd]

/-- Witness for C10: the empty manager and the empty Common Name. -/
theorem unseen_user_fail_open_witness :
    emptyStatsManager.userStats "" = none ∧
    (emptyStatsManager.IsUserDisabled "" = false ∧
      ServeHTTP false false emptyStatsManager (ReqCtx.mk true true "" true) =
        { action := .tunnel "", recordedConnection := true
          recordedRequest := false, dbRequestIncremented := false } ∧
      ServeHTTP false false emptyStatsManager (ReqCtx.mk true true "" false) =
        { action := .proxyDefault, recordedConnection := false
          recordedRequest := true, dbRequestIncremented := false }) :=
  ⟨rfl, unseen_user_fail_open emptyStatsManager "" false rfl⟩

/-- C9: `DisableUser` and `EnableUser` are idempotent on the manager
state — a second application leaves the whole state (per-user flags and
statistics) unchanged and reports no change — and after `DisableUser`
the user queries as disabled while after `EnableUser` it queries as
enabled. -/
theorem disable_enable_idempotent (sm : StatsManager) (u : String) (t1 t2 : Nat) :
    ((sm.DisableUser u t1).1.DisableUser u t2 = ((sm.DisableUser u t1).1, false) ∧
      (sm.DisableUser u t1).1.IsUserDisabled u = true) ∧
    ((sm.EnableUser u t1).1.EnableUser u t2 = ((sm.EnableUser u t1).1, false) ∧
      (sm.EnableUser u t1).1.IsUserDisabled u = false) := by
  obtain ⟨us, dirty⟩ := sm
  cases h : us u with
  | none =>
    constructor
    · constructor
      · simp [StatsManager.DisableUser, h, putUser]
      · simp [StatsManager.DisableUser, StatsManager.IsUserDisabled, h, putUser]
    · constructor
      · simp [StatsManager.EnableUser, h, putUser]
      · simp [StatsManager.EnableUser, StatsManager.IsUserDisabled, h, putUser]
  | some stats =>
    cases hd : stats.Disabled with
    | true =>
      constructor
      · constructor
        · simp [StatsManager.DisableUser, h, hd, putUser]
        · simp [StatsManager.DisableUser, StatsManager.IsUserDisabled, h, hd, putUser]
      · constructor
        · simp [StatsManager.EnableUser, h, hd, putUser]
        · simp [StatsManager.EnableUser, StatsManager.IsUserDisabled, h, hd, putUser]
    | false =>
      constructor
      · constructor
        · simp [StatsManager.DisableUser, h, hd, putUser]
        · simp [StatsManager.DisableUser, StatsManager.IsUserDisabled, h, hd, putUser]
      · constructor
        · simp [StatsManager.EnableUser, h, hd, putUser]
        · simp [StatsManager.EnableUser, StatsManager.IsUserDisabled, h, hd, putUser]

/-- Helper: the batch write of one record updates the writer's own user
row with `upsertUser`. -/
theorem upsertRecord_users_self (db : StatsDBState) (r : TrafficRecord) :
    (upsertRecord db r).users r.Username = some (upsertUser (db.users r.Username) r) := by
  simp [upsertRecord]

/-- Helper: upserting `K` copies of the same record onto an existing
user row adds `K` times the record's counters to the row's counters. -/
theorem batchUpsert_replicate_totals (r : TrafficRecord) :
    ∀ (K : Nat) (db : StatsDBState) (u : UserRow),
      db.users r.Username = some u →
      ((BatchUpsert db (List.replicate K r)).users r.Username).map
          (fun v => (v.totalUpload, v.totalDownload, v.connCount)) =
        some (u.totalUpload + K * r.Upload, u.totalDownload + K * r.Download,
          u.connCount + K * r.ConnCount) := by
  intro K
  induction K with
  | zero =>
    intro db u hu
    simp [BatchUpsert, hu]
  | succ K ih =>
    intro db u hu
    have h1 : BatchUpsert db (List.replicate (K + 1) r) =
        BatchUpsert (upsertRecord db r) (List.replicate K r) := by
      rw [List.replicate_succ]; rfl
    rw [h1]
    have h2 : (upsertRecord db r).users r.Username =
        some (upsertUser (db.users r.Username) r) := upsertRecord_users_self db r
    rw [hu] at h2
    rw [ih (upsertRecord db r) (upsertUser (some u) r) h2]
    simp only [upsertUser, Option.some.injEq, Prod.mk.injEq]
    refine ⟨by ring, by ring, by ring⟩

/-- C2: the batch upsert of `db.go` accumulates rather than replaces —
on every record whose primary key already exists, in each of the five
statistics tables, the incoming upload, download and connection count
are added to the stored values (timestamp columns are overwritten with
the incoming `last_access`/`last_seen`, and the minute/hour tables have
none) — and writing the same record `K ≥ 1` times into the empty store
leaves totals exactly `K` times the single-record values. -/
theorem batchUpsert_accumulates :
    (∀ (db : StatsDBState) (r : TrafficRecord) (u : UserRow),
      db.users r.Username = some u →
      (BatchUpsert db [r]).users r.Username =
        some { u with
          totalUpload := u.totalUpload + r.Upload
          totalDownload := u.totalDownload + r.Download
          connCount := u.connCount + r.ConnCount
          lastAccess := r.Timestamp }) ∧
    (∀ (db : StatsDBState) (r : TrafficRecord) (d : DomainRow),
      r.Domain ≠ "" → db.domains (r.Username, r.Domain) = some d →
      (BatchUpsert db [r]).domains (r.Username, r.Domain) =
        some { upload := d.upload + r.Upload
               download := d.download + r.Download
               connCount := d.connCount + r.ConnCount
               lastSeen := r.Timestamp }) ∧
    (∀ (db : StatsDBState) (r : TrafficRecord) (b : BucketRow),
      r.Minute ≠ "" → db.minutes (r.Username, r.Minute) = some b →
      (BatchUpsert db [r]).minutes (r.Username, r.Minute) =
        some { upload := b.upload + r.Upload
               download := b.download + r.Download
               connCount := b.connCount + r.ConnCount }) ∧
    (∀ (db : StatsDBState) (r : TrafficRecord) (b : BucketRow),
      r.Hour ≠ "" → db.hours (r.Username, r.Hour) = some b →
      (BatchUpsert db [r]).hours (r.Username, r.Hour) =
        some { upload := b.upload + r.Upload
               download := b.download + r.Download
               connCount := b.connCount + r.ConnCount }) ∧
    (∀ (db : StatsDBState) (r : TrafficRecord) (c : CountryRow),
      r.Country ≠ "" → db.countries (r.Username, r.Country) = some c →
      (BatchUpsert db [r]).countries (r.Username, r.Country) =
        some { countryName := r.CountryName
               continent := r.Continent
               upload := c.upload + r.Upload
               download := c.download + r.Download
               connCount := c.connCount + r.ConnCount
               lastSeen := r.Timestamp }) ∧
    (∀ (K : Nat) (r : TrafficRecord), 0 < K →
      ((BatchUpsert emptyStatsDB (List.replicate K r)).users r.Username).map
          (fun v => (v.totalUpload, v.totalDownload, v.connCount)) =
        some (K * r.Upload, K * r.Download, K * r.ConnCount)) := by
  refine ⟨?_, ?_, ?_, ?_, ?_, ?_⟩
  · intro db r u hu
    have h1 : (BatchUpsert db [r]).users r.Username =
        some (upsertUser (db.users r.Username) r) := upsertRecord_users_self db r
    rw [hu] at h1
    rw [h1]
    rfl
  · intro db r d hdom hd
    show (upsertRecord db r).domains (r.Username, r.Domain) = _
    simp [upsertRecord, hdom, hd, upsertDomain]
  · intro db r b hmin hb
    show (upsertRecord db r).minutes (r.Username, r.Minute) = _
    simp [upsertRecord, hmin, hb, upsertBucket]
  · intro db r b hhr hb
    show (upsertRecord db r).hours (r.Username, r.Hour) = _
    simp [upsertRecord, hhr, hb, upsertBucket]
  · intro db r c hcty hc
    show (upsertRecord db r).countries (r.Username, r.Country) = _
    simp [upsertRecord, hcty, hc, upsertCountry]
  · intro K r hK
    obtain ⟨K', rfl⟩ : ∃ K', K = K' + 1 := ⟨K - 1, by omega⟩
    have h1 : BatchUpsert emptyStatsDB (List.replicate (K' + 1) r) =
        BatchUpsert (upsertRecord emptyStatsDB r) (List.replicate K' r) := by
      rw [List.replicate_succ]; rfl
    rw [h1]
    have h2 : (upsertRecord emptyStatsDB r).users r.Username =
        some (upsertUser none r) := upsertRecord_users_self emptyStatsDB r
    rw [batchUpsert_replicate_totals r K' (upsertRecord emptyStatsDB r)
      (upsertUser none r) h2]
    simp only [upsertUser, Option.some.injEq, Prod.mk.injEq]
    refine ⟨by ring, by ring, by ring⟩

/-- Witness for C2: the accumulation scenario of the store test — 100/200/1
then 300/400/1 on the same keys leaves 400/600/2 in every table the
records touch — and two copies of the first record leave 200/400/2. -/
theorem batchUpsert_accumulates_witness :
    ((BatchUpsert emptyStatsDB [sampleRecordA]).users "alice" = some sampleRowA ∧
      (BatchUpsert (BatchUpsert emptyStatsDB [sampleRecordA]) [sampleRecordB]).users
          "alice" =
        some { sampleRowA with
          totalUpload := sampleRowA.totalUpload + 300
          totalDownload := sampleRowA.totalDownload + 400
          connCount := sampleRowA.connCount + 1
          lastAccess := 1700000000 }) ∧
    (sampleRecordB.Domain ≠ "" ∧
      (BatchUpsert emptyStatsDB [sampleRecordA]).domains ("alice", "google.com") =
        some (DomainRow.mk 100 200 1 1700000000) ∧
      (BatchUpsert (BatchUpsert emptyStatsDB [sampleRecordA]) [sampleRecordB]).domains
          ("alice", "google.com") =
        some (DomainRow.mk (100 + 300) (200 + 400) (1 + 1) 1700000000)) ∧
    (sampleRecordB.Minute ≠ "" ∧
      (BatchUpsert emptyStatsDB [sampleRecordA]).minutes
          ("alice", "2023-11-14T22:13:00") = some (BucketRow.mk 100 200 1) ∧
      (BatchUpsert (BatchUpsert emptyStatsDB [sampleRecordA]) [sampleRecordB]).minutes
          ("alice", "2023-11-14T22:13:00") =
        some (BucketRow.mk (100 + 300) (200 + 400) (1 + 1))) ∧
    (sampleRecordB.Hour ≠ "" ∧
      (BatchUpsert emptyStatsDB [sampleRecordA]).hours
          ("alice", "2023-11-14T22:00:00") = some (BucketRow.mk 100 200 1) ∧
      (BatchUpsert (BatchUpsert emptyStatsDB [sampleRecordA]) [sampleRecordB]).hours
          ("alice", "2023-11-14T22:00:00") =
        some (BucketRow.mk (100 + 300) (200 + 400) (1 + 1))) ∧
    (sampleRecordC.Country ≠ "" ∧
      (BatchUpsert emptyStatsDB [sampleRecordC]).countries ("alice", "US") =
        some (CountryRow.mk "United States" "NA" 100 200 1 1700000000) ∧
      (BatchUpsert (BatchUpsert emptyStatsDB [sampleRecordC]) [sampleRecordC]).countries
          ("alice", "US") =
        some (CountryRow.mk "United States" "NA" (100 + 100) (200 + 200) (1 + 1)
          1700000000)) ∧
    (0 < 2 ∧
      ((BatchUpsert emptyStatsDB (List.replicate 2 sampleRecordA)).users
          "alice").map (fun v => (v.totalUpload, v.totalDownload, v.connCount)) =
        some (2 * 100, 2 * 200, 2 * 1)) :=
  ⟨⟨rfl, batchUpsert_accumulates.1 (BatchUpsert emptyStatsDB [sampleRecordA])
      sampleRecordB sampleRowA rfl⟩,
   ⟨by decide, rfl, batchUpsert_accumulates.2.1 (BatchUpsert emptyStatsDB [sampleRecordA])
      sampleRecordB (DomainRow.mk 100 200 1 1700000000) (by decide) rfl⟩,
   ⟨by decide, rfl, batchUpsert_accumulates.2.2.1 (BatchUpsert emptyStatsDB [sampleRecordA])
      sampleRecordB (BucketRow.mk 100 200 1) (by decide) rfl⟩,
   ⟨by decide, rfl, batchUpsert_accumulates.2.2.2.1 (BatchUpsert emptyStatsDB [sampleRecordA])
      sampleRecordB (BucketRow.mk 100 200 1) (by decide) rfl⟩,
   ⟨by decide, rfl, batchUpsert_accumulates.2.2.2.2.1 (BatchUpsert emptyStatsDB [sampleRecordC])
      sampleRecordC (CountryRow.mk "United States" "NA" 100 200 1 1700000000)
      (by decide) rfl⟩,
   ⟨by decide, batchUpsert_accumulates.2.2.2.2.2 2 sampleRecordA (by decide)⟩⟩

/-- C7 counterexample: for an event carrying a destination IP but no
country, the value `Record` enqueues is NOT the unmodified event — the
country fields are already filled in from the GeoIP resolver before the
channel send (the lookup runs on the calling tunnel task, not in the
collector loop). -/
theorem Record_enqueues_enriched_event :
    (Record sampleResolver [] sampleEventIP).1 ≠ [sampleEventIP] := by
  decide

/-- C7 amended: GeoIP enrichment happens inside `Record`, before the
channel send, on the caller's (tunnel) task — for every event with a
destination IP, no country, and a resolver that knows the IP, `Record`
enqueues the event with the resolver's country, country name and
continent filled in. -/
theorem Record_enriches_before_enqueue (lookup : String → Option GeoResult)
    (q : List TrafficEvent) (ev : TrafficEvent) (g : GeoResult)
    (hc : ev.Country = "") (hip : ev.TargetIP ≠ "") (hg : lookup ev.TargetIP = some g)
    (hq : q.length < chanCapacity) :
    Record lookup q ev =
      (q ++ [{ ev with Country := g.Country, CountryName := g.CountryName, Continent := g.Continent }], true) := by
  simp [Record, enrichEvent, hc, hip, hg, hq]

/-- Witness for the amended C7 at the sample resolver and event. -/
theorem Record_enriches_before_enqueue_witness :
    sampleEventIP.Country = "" ∧
    sampleEventIP.TargetIP ≠ "" ∧
    sampleResolver sampleEventIP.TargetIP =
      some (GeoResult.mk "US" "United States" "NA") ∧
    ([] : List TrafficEvent).length < chanCapacity ∧
    Record sampleResolver [] sampleEventIP =
      ([] ++ [{ sampleEventIP with Country := "US", CountryName := "United States", Continent := "NA" }], true) :=
  ⟨rfl, by decide, rfl, by decide,
    Record_enriches_before_enqueue sampleResolver [] sampleEventIP
      (GeoResult.mk "US" "United States" "NA") rfl (by decide) rfl (by decide)⟩

/-- Helper: the conditional LastSeen update of `aggregate` is the
binary maximum. -/
theorem ite_lt_eq_max (a b : Nat) : (if a < b then b else a) = max a b := by
  rcases Nat.lt_or_ge a b with h | h
  · simp [h, Nat.max_eq_right h.le]
  · simp [Nat.not_lt.mpr h, Nat.max_eq_left h]

/-- Helper: the buffer after folding a sequence of events, read at one
key, is the fold of the per-bucket update over exactly the events whose
derived key is that key. -/
theorem aggregateList_apply (now : Nat) (evs : List TrafficEvent) :
    ∀ (b : Buffer) (k : bufferKey),
      aggregateList now b evs k =
        (evs.filter fun ev => decide (eventKey now ev = k)).foldl
          (fun o ev => some (aggApply o ev (eventTime now ev))) (b k) := by
  induction evs with
  | nil => intro b k; rfl
  | cons e es ih =>
    intro b k
    have h1 : aggregateList now b (e :: es) =
        aggregateList now (aggregate now b e) es := rfl
    rw [h1, ih]
    by_cases hk : eventKey now e = k
    · subst hk
      simp only [List.filter_cons, decide_eq_true_eq, if_true, List.foldl_cons]
      have h2 : aggregate now b e (eventKey now e) =
          some (aggApply (b (eventKey now e)) e (eventTime now e)) := by
        simp [aggregate]
      rw [h2]
    · have hk' : k ≠ eventKey now e := fun hh => hk hh.symm
      have h2 : aggregate now b e k = b k := by
        simp [aggregate, hk']
      rw [h2]
      have h3 : (List.filter (fun ev => decide (eventKey now ev = k)) (e :: es)) =
          List.filter (fun ev => decide (eventKey now ev = k)) es := by
        simp [List.filter_cons, hk]
      rw [h3]

/-- Helper: folding the per-bucket update over events with nonzero
timestamps, starting from an existing bucket, adds the upload and
download sums, adds the event count, keeps the display fields, and
takes the running maximum of the timestamps. -/
theorem foldl_aggApply_some (now : Nat) (l : List TrafficEvent) :
    ∀ a : aggregatedEvent, (∀ ev ∈ l, ev.Timestamp ≠ 0) →
      l.foldl (fun o ev => some (aggApply o ev (eventTime now ev))) (some a) =
        some { Upload := a.Upload + (l.map TrafficEvent.Upload).sum
               Download := a.Download + (l.map TrafficEvent.Download).sum
               ConnCount := a.ConnCount + l.length
               CountryName := a.CountryName
               Continent := a.Continent
               LastSeen := l.foldl (fun m ev => max m ev.Timestamp) a.LastSeen } := by
  induction l with
  | nil =>
    intro a _
    simp
  | cons e es ih =>
    intro a hl
    have he : e.Timestamp ≠ 0 := hl e (by simp)
    have hes : ∀ ev ∈ es, ev.Timestamp ≠ 0 := fun ev hv => hl ev (by simp [hv])
    have ht : eventTime now e = e.Timestamp := by simp [eventTime, he]
    have h1 : aggApply (some a) e (eventTime now e) =
        { Upload := a.Upload + e.Upload
          Download := a.Download + e.Download
          ConnCount := a.ConnCount + 1
          CountryName := a.CountryName
          Continent := a.Continent
          LastSeen := max a.LastSeen e.Timestamp } := by
      rw [aggApply, ht]
      simp [ite_lt_eq_max]
    simp only [List.foldl_cons, h1]
    rw [ih _ hes]
    simp only [List.map_cons, List.sum_cons, List.length_cons,
      Option.some.injEq, aggregatedEvent.mk.injEq]
    refine ⟨by ring, by ring, by ring, trivial, trivial, trivial⟩

/-- C1: for every finite sequence of events with nonzero timestamps
folded into an empty buffer, every key's bucket is exactly described by
`bucketSpec` of the events mapping to that key — whose minute and hour
components are the event timestamp truncated and formatted
`YYYY-MM-DDTHH:MM:00` / `YYYY-MM-DDTHH:00:00` (via `eventKey`), whose
upload/download are the sums, whose connection count is the number of
events, whose LastSeen is the latest timestamp, and whose country name
and continent come from the first event observed for the key. -/
theorem aggregate_buffer_matches_bucketSpec (now : Nat) (evs : List TrafficEvent)
    (k : bufferKey) (h : ∀ ev ∈ evs, ev.Timestamp ≠ 0) :
    aggregateList now emptyBuffer evs k =
      bucketSpec (evs.filter fun ev => decide (eventKey now ev = k)) := by
  rw [aggregateList_apply]
  have hsub : ∀ ev ∈ evs.filter (fun ev => decide (eventKey now ev = k)),
      ev.Timestamp ≠ 0 := fun ev hv => h ev (List.mem_of_mem_filter hv)
  rcases hfl : evs.filter (fun ev => decide (eventKey now ev = k)) with _ | ⟨e, es⟩
  · rfl
  · rw [hfl] at hsub
    have he : e.Timestamp ≠ 0 := hsub e (by simp)
    have hes : ∀ ev ∈ es, ev.Timestamp ≠ 0 := fun ev hv => hsub ev (by simp [hv])
    have ht : eventTime now e = e.Timestamp := by simp [eventTime, he]
    have hstart : aggApply (emptyBuffer k) e (eventTime now e) =
        { Upload := e.Upload
          Download := e.Download
          ConnCount := 1
          CountryName := e.CountryName
          Continent := e.Continent
          LastSeen := e.Timestamp } := by
      show aggApply none e (eventTime now e) = _
      rw [aggApply, ht]
      have hpos : (0 : Nat) < e.Timestamp := Nat.pos_of_ne_zero he
      simp [hpos]
    simp only [List.foldl_cons, emptyBuffer] at hstart ⊢
    rw [hstart, foldl_aggApply_some now es _ hes]
    simp only [bucketSpec, List.map_cons, List.sum_cons, List.length_cons,
      List.foldl_cons, Option.some.injEq, aggregatedEvent.mk.injEq]
    have hmax : max 0 e.Timestamp = e.Timestamp := by simp
    rw [hmax]
    and_intros <;> first | rfl | ring

/-- Witness for C1: two same-key events with nonzero timestamps, folded
into the empty buffer, read at their common key. -/
theorem aggregate_buffer_matches_bucketSpec_witness :
    (∀ ev ∈ [sampleEventPlain, sampleEventPlain2], ev.Timestamp ≠ 0) ∧
    aggregateList 0 emptyBuffer [sampleEventPlain, sampleEventPlain2] sampleKey =
      bucketSpec ([sampleEventPlain, sampleEventPlain2].filter
        fun ev => decide (eventKey 0 ev = sampleKey)) :=
  ⟨by decide,
    aggregate_buffer_matches_bucketSpec 0 [sampleEventPlain, sampleEventPlain2]
      sampleKey (by decide)⟩
